import Mathlib

/-!
Shallow embedding of `airflow/providers/apache/druid/operators/druid_check.py`
(class `DruidCheckOperator`), together with theorems settling the behavioral
claims of the specification against this embedding.

The Python module defines one operator class with three methods:

* `__init__(sql, druid_broker_conn_id='druid_broker_default', ...)` stores the
  two configuration strings on the instance;
* `get_db_hook()` builds a `DruidDbApiHook` from the stored connection id;
* `get_first(sql)` opens a broker connection with a `with` statement, runs the
  SQL, and returns `cur.fetchone()`;
* `execute(context=None)` calls `get_first(self.sql)` and raises
  `AirflowException("The query returned None")` when `not record` holds
  (Python truthiness of the fetched record), otherwise returns `None`.

Scalar values appearing in result rows are modelled by a `Value` variant
covering the Python value classes relevant to truthiness (bool, int, float,
string, list, dict, set); the query engine is modelled as a function from SQL
text to either an engine-level error or a list of result rows.
-/

/-- Python scalar/container values that may appear in a fetched row.
Floats are modelled by rationals, which is faithful for the only operation
performed on them here (comparison with zero under `bool` casting). -/
inductive Value where
  | bool (b : Bool)
  | int (n : Int)
  | float (q : ℚ)
  | str (s : String)
  | list (vs : List Value)
  | dict (entries : List (Value × Value))
  | set (elems : List Value)
deriving Repr

/-- Python `bool(v)` casting on a scalar value: `False`, `0`, `0.0`, `""`,
`[]`, `{}` (empty dict) and empty set are falsy; everything else is truthy. -/
def Value.truthy : Value → Bool
  | .bool b => b
  | .int n => decide (n ≠ 0)
  | .float q => decide (q ≠ 0)
  | .str s => decide (s ≠ "")
  | .list vs => !vs.isEmpty
  | .dict entries => !entries.isEmpty
  | .set elems => !elems.isEmpty

/-- A fetched result row: an ordered sequence of scalar values
(DB-API `fetchone` returns one row as a sequence, or `None`). -/
abbrev Row := List Value

/-- Python truthiness of the DB-API `fetchone` result, as tested by
`if not record:` in `execute`: `None` is falsy, an empty sequence is falsy,
and any non-empty sequence is truthy regardless of the values it contains. -/
def recordFalsy : Option Row → Bool
  | none => true
  | some row => row.isEmpty

/-- The Druid broker query engine as seen by the cursor: for a SQL string it
either raises an engine-level error (modelled by `Except.error` carrying the
error message) or produces the full ordered result set. -/
structure DruidEngine where
  query : String → Except String (List Row)

/-- State of a DB-API cursor after a successful `cur.execute(sql)`:
the remaining unfetched rows of the result set. -/
structure CursorState where
  results : List Row

/-- DB-API `cur.execute(sql)` against the broker: delegates to the engine and,
on success, loads the result set into the cursor. An engine-level error is
re-raised unchanged. -/
def cursorExecute (eng : DruidEngine) (sql : String) : Except String CursorState :=
  (eng.query sql).map fun rows => ⟨rows⟩

/-- DB-API `cur.fetchone()`: returns the first remaining row (or `None` when
the result set is exhausted) and advances the cursor past it. -/
def cursorFetchone (c : CursorState) : Option Row × CursorState :=
  match c.results with
  | [] => (none, c)
  | r :: rest => (some r, ⟨rest⟩)

/-- The `DruidDbApiHook` built by `get_db_hook`: it carries the broker
connection id resolved by the Connection Provider. -/
structure DruidDbApiHook where
  druid_broker_conn_id : String

/-- `DruidCheckOperator` instance state: the two configuration fields stored
by `__init__`. -/
structure DruidCheckOperator where
  sql : String
  druid_broker_conn_id : String
deriving Repr, DecidableEq

/-- `__init__(sql, druid_broker_conn_id)`: stores both arguments on the
instance (`self.druid_broker_conn_id = druid_broker_conn_id; self.sql = sql`). -/
def DruidCheckOperator.init (sql : String) (druid_broker_conn_id : String) :
    DruidCheckOperator :=
  { sql := sql, druid_broker_conn_id := druid_broker_conn_id }

/-- The default value of the `druid_broker_conn_id` keyword argument. -/
def druidBrokerDefault : String := "druid_broker_default"

/-- `get_db_hook(self)`: returns `DruidDbApiHook(druid_broker_conn_id=self.druid_broker_conn_id)`. -/
def DruidCheckOperator.get_db_hook (op : DruidCheckOperator) : DruidDbApiHook :=
  { druid_broker_conn_id := op.druid_broker_conn_id }

/-- State of the broker connection obtained from `hook.get_conn()` during one
`get_first` call: whether it has been released. -/
structure ConnState where
  closed : Bool
deriving Repr, DecidableEq

/-- `hook.get_conn()`: opens a broker session (not yet closed). -/
def getConn (_hook : DruidDbApiHook) : ConnState := { closed := false }

/-- Releasing the session: the `__exit__` of the connection context manager. -/
def connClose (s : ConnState) : ConnState := { s with closed := true }

/-- `get_first(self, sql)`:

```
with self.get_db_hook().get_conn() as cur:
    cur.execute(sql)
    return cur.fetchone()
```

The result is the value returned or the exception raised by the body, paired
with the final connection state. Per Python `with` semantics, `__exit__` runs
whether the body returns normally or raises, and the connection's `__exit__`
does not suppress the exception, so an engine error propagates with the
session closed. -/
def DruidCheckOperator.get_first (op : DruidCheckOperator) (eng : DruidEngine)
    (sql : String) : Except String (Option Row) × ConnState :=
  let conn := getConn op.get_db_hook
  let body : Except String (Option Row) :=
    match cursorExecute eng sql with
    | .error e => .error e
    | .ok c => .ok (cursorFetchone c).1
  (body, connClose conn)

/-- Exceptions that can escape `execute`: the `AirflowException` raised by the
operator itself, or an engine-level error propagated from the driver. -/
inductive PyExc where
  | airflow (msg : String)
  | engine (msg : String)
deriving Repr, DecidableEq

/-- The execution context passed by the Task Host: an opaque key-value
mapping (`Optional[Dict[Any, Any]]`, default `None`). -/
abbrev Context := List (Value × Value)

/-- `execute(self, context=None)`:

```
record = self.get_first(self.sql)
if not record:
    raise AirflowException("The query returned None")
```

Returns the outcome (normal `None` return, or the exception raised) together
with the operator state after the call; the method assigns no instance field,
so that state is the receiver unchanged. The `context` argument is never
read. -/
def DruidCheckOperator.execute (op : DruidCheckOperator) (eng : DruidEngine)
    (_context : Option Context := none) : Except PyExc Unit × DruidCheckOperator :=
  match (op.get_first eng op.sql).1 with
  | .error e => (.error (.engine e), op)
  | .ok record =>
      if recordFalsy record then
        (.error (.airflow "The query returned None"), op)
      else
        (.ok (), op)

/-- An engine that answers every query with the given fixed result set. -/
def constEngine (rows : List Row) : DruidEngine := ⟨fun _ => .ok rows⟩

/-- An engine that raises the given engine-level error on every query. -/
def failingEngine (msg : String) : DruidEngine := ⟨fun _ => .error msg⟩


/-- Helper: `execute` assigns no instance field, so the operator state after
the call is the receiver, on every branch of the method. -/
theorem execute_preserves_state (op : DruidCheckOperator) (eng : DruidEngine)
    (ctx : Option Context) : (op.execute eng ctx).2 = op := by
  unfold DruidCheckOperator.execute
  cases (op.get_first eng op.sql).1 with
  | error e => rfl
  | ok record =>
      by_cases hr : recordFalsy record = true
      · simp [hr]
      · simp [hr]

/-- Helper: when the engine answers the query with result set `rows`,
`execute` raises the `AirflowException` exactly when the fetched record
(`rows.head?`) is Python-falsy, and passes otherwise. -/
theorem execute_characterization (op : DruidCheckOperator) (eng : DruidEngine)
    (ctx : Option Context) (rows : List Row) (hq : eng.query op.sql = .ok rows) :
    (op.execute eng ctx).1 =
      (if recordFalsy rows.head? then
        .error (.airflow "The query returned None") else .ok ()) := by
  unfold DruidCheckOperator.execute DruidCheckOperator.get_first cursorExecute
  simp only [hq, Except.map]
  cases rows with
  | nil => rfl
  | cons r rest => rw [apply_ite Prod.fst]; rfl

/-- C1: the spec says any fetched row containing at least one falsy value
makes `execute` raise a CheckFailure. The code's own docstring documents the
same behavior ("Each value on that first row is evaluated using python bool
casting. If any of the values return False the check is failed"), but the
`execute` body only tests `if not record:`, the truthiness of the whole row.
At the failing input — engine answers with the single-value row `[False]` —
the row is a non-empty sequence, so `execute` returns normally even though
the row's only value is falsy. -/
theorem C1_falsy_value_row_passes :
    Value.truthy (Value.bool false) = false ∧
    ((DruidCheckOperator.init "SELECT active FROM t" druidBrokerDefault).execute
      (constEngine [[Value.bool false]]) none).1 = .ok () :=
  ⟨rfl, rfl⟩

/-- C2: for `SELECT COUNT(*) FROM foo`, the spec (and the class docstring:
"it will fail only if the count == 0") requires the row `[0]` to raise a
CheckFailure and the row `[5]` to pass. In the code both rows pass: the row
`[0]` is a non-empty sequence, so `if not record:` does not fire. -/
theorem C2_count_zero_passes :
    ((DruidCheckOperator.init "SELECT COUNT(*) FROM foo" druidBrokerDefault).execute
      (constEngine [[Value.int 0]]) none).1 = .ok () ∧
    ((DruidCheckOperator.init "SELECT COUNT(*) FROM foo" druidBrokerDefault).execute
      (constEngine [[Value.int 5]]) none).1 = .ok () :=
  ⟨rfl, rfl⟩

/-- C3: whenever the engine answers the query with a result set whose first
row is a (necessarily non-empty) fetched row all of whose values are truthy,
`execute` returns normally with no value (`.ok ()`); no failure is raised. -/
theorem C3_all_truthy_row_passes (op : DruidCheckOperator) (eng : DruidEngine)
    (ctx : Option Context) (row : Row) (rest : List Row)
    (hq : eng.query op.sql = .ok (row :: rest)) (hne : row ≠ [])
    (_htruthy : ∀ v ∈ row, v.truthy = true) :
    (op.execute eng ctx).1 = .ok () := by
  rw [execute_characterization op eng ctx (row :: rest) hq]
  simp [recordFalsy, List.isEmpty_iff, hne]

/-- Witness for C3: a single-value row holding the non-empty string "0"
(truthy under `bool` casting) makes `execute` pass. -/
theorem C3_witness :
    ((DruidCheckOperator.init "SELECT c FROM t" druidBrokerDefault).execute
      (constEngine [[Value.str "0"]]) none).1 = .ok () :=
  C3_all_truthy_row_passes _ _ _ [Value.str "0"] [] rfl
    (by simp)
    (by intro v hv; rw [List.mem_singleton] at hv; subst hv; rfl)

/-- C4: when the query returns no row at all (empty result set), `fetchone`
yields `None` and `execute` raises the `AirflowException` with message
"The query returned None", which indicates the absence of a row. -/
theorem C4_no_row_raises (op : DruidCheckOperator) (eng : DruidEngine)
    (ctx : Option Context) (hq : eng.query op.sql = .ok []) :
    (op.execute eng ctx).1 = .error (.airflow "The query returned None") := by
  rw [execute_characterization op eng ctx [] hq]
  rfl

/-- Witness for C4: an engine whose result set is empty makes `execute`
raise the exception. -/
theorem C4_witness :
    ((DruidCheckOperator.init "SELECT c FROM t WHERE 1=0" druidBrokerDefault).execute
      (constEngine []) none).1 = .error (.airflow "The query returned None") :=
  C4_no_row_raises _ _ _ rfl

/-- C5: given a successful query, `execute` raises its failure exception —
always the same exception with the same message "The query returned None" —
exactly when the fetched record is absent (`None`) or an empty sequence; and
every non-empty fetched row passes regardless of the values it contains. -/
theorem C5_raise_iff_record_empty (op : DruidCheckOperator) (eng : DruidEngine)
    (ctx : Option Context) (rows : List Row) (hq : eng.query op.sql = .ok rows) :
    ((op.execute eng ctx).1 = .error (.airflow "The query returned None") ↔
      (rows.head? = none ∨ rows.head? = some ([] : Row))) ∧
    (∀ v vs rest, rows = (v :: vs) :: rest → (op.execute eng ctx).1 = .ok ()) := by
  rw [execute_characterization op eng ctx rows hq]
  constructor
  · cases rows with
    | nil => simp [recordFalsy]
    | cons r rest =>
        cases r with
        | nil => simp [recordFalsy]
        | cons v vs => simp [recordFalsy]
  · intro v vs rest hrows
    subst hrows
    simp [recordFalsy]

/-- Witness for C5: with an empty result set the fetched record is `None`
and the exception is raised with exactly that message. -/
theorem C5_witness :
    ((DruidCheckOperator.init "SELECT c FROM t" druidBrokerDefault).execute
      (constEngine []) none).1 = .error (.airflow "The query returned None") :=
  ((C5_raise_iff_record_empty _ _ none [] rfl).1).mpr (Or.inl rfl)

/-- C6: if query execution raises an engine-level error, that error
propagates out of `execute` unchanged (same error, same message) and is never
converted into the operator's own `AirflowException`, so the Task Host can
distinguish query errors from semantic failures. -/
theorem C6_engine_error_propagates (op : DruidCheckOperator) (eng : DruidEngine)
    (ctx : Option Context) (msg : String) (hq : eng.query op.sql = .error msg) :
    (op.execute eng ctx).1 = .error (.engine msg) ∧
    (∀ m, (op.execute eng ctx).1 ≠ .error (.airflow m)) := by
  have h : (op.execute eng ctx).1 = .error (.engine msg) := by
    unfold DruidCheckOperator.execute DruidCheckOperator.get_first cursorExecute
    simp only [hq, Except.map]
  exact ⟨h, fun m hm => by rw [h] at hm; exact PyExc.noConfusion (Except.error.inj hm)⟩

/-- Witness for C6: an engine that raises "broker unreachable" makes
`execute` propagate exactly that engine error. -/
theorem C6_witness :
    ((DruidCheckOperator.init "SELECT c FROM t" druidBrokerDefault).execute
      (failingEngine "broker unreachable") none).1 = .error (.engine "broker unreachable") :=
  (C6_engine_error_propagates _ _ none "broker unreachable" rfl).1

/-- C7: on every execution path of `get_first` — normal return of the fetched
row as well as an engine-level error raised inside the `with` block — the
acquired broker session is released before `get_first` exits. -/
theorem C7_session_released (op : DruidCheckOperator) (eng : DruidEngine)
    (sql : String) : ((op.get_first eng sql).2).closed = true := rfl

/-- C8: when the engine answers the given SQL with a result set whose first
row is `r`, `get_first` returns exactly `r`, whatever the subsequent rows
`rest` are. -/
theorem C8_returns_first_row (op : DruidCheckOperator) (eng : DruidEngine)
    (sql : String) (r : Row) (rest : List Row)
    (hq : eng.query sql = .ok (r :: rest)) :
    (op.get_first eng sql).1 = .ok (some r) := by
  unfold DruidCheckOperator.get_first cursorExecute
  simp only [hq, Except.map]
  rfl

/-- Witness for C8: with a two-row result set, `get_first` returns the first
row and ignores the second. -/
theorem C8_witness :
    ((DruidCheckOperator.init "SELECT c FROM t" druidBrokerDefault).get_first
      (constEngine [[Value.int 1], [Value.int 2]]) "SELECT c FROM t").1 =
      .ok (some [Value.int 1]) :=
  C8_returns_first_row _ _ _ [Value.int 1] [[Value.int 2]] rfl

/-- C9: the configuration fields `sql` and `druid_broker_conn_id` set by the
constructor are never mutated: after any call to `execute` — whether it
passes, raises the check failure, or propagates an engine error — both fields
still hold exactly the values given to the constructor. -/
theorem C9_config_immutable (sql cid : String) (eng : DruidEngine)
    (ctx : Option Context) :
    (((DruidCheckOperator.init sql cid).execute eng ctx).2).sql = sql ∧
    (((DruidCheckOperator.init sql cid).execute eng ctx).2).druid_broker_conn_id = cid := by
  rw [execute_preserves_state]
  exact ⟨rfl, rfl⟩

/-- C10: the outcome of `execute` is independent of the `context` argument:
for any two context values (including the default `None`), the same engine
answer yields the identical outcome. -/
theorem C10_context_independent (op : DruidCheckOperator) (eng : DruidEngine)
    (ctx1 ctx2 : Option Context) :
    (op.execute eng ctx1).1 = (op.execute eng ctx2).1 := rfl
